import Mathlib

/-
Verification of the ceriv-faltas chat subsystem.

Part 1 embeds the end-to-end encryption layer of
backend/app/services/chat_security.py.  The NaCl Box primitive
(Curve25519 + XSalsa20 + Poly1305, provided by the external libsodium
library) is modelled from the spec's contract; the wrapper functions
encrypt_message / decrypt_message follow the source.

Part 2 embeds the Socket.IO chat server of
backend/app/services/chat_server.py as a pure state-transition model:
each event handler is a function from the server state and the
incoming payload to the new state plus the list of emitted events.
-/

namespace ChatSecurity

/-- Error raised by the crypto layer on authentication failure
(PyNaCl raises nacl.exceptions.CryptoError; the source's
decrypt_message catches, logs and re-raises it). -/
inductive CryptoError where
  | authFailure
  deriving DecidableEq, Repr

/-- Modelled from the spec: the Curve25519-class group modulus used by the
Diffie-Hellman key agreement inside the NaCl Box (libsodium, not part of
this repository).  The spec requires only that the box key agreement is
symmetric; we realise it as modular exponentiation with base 9 (the
Curve25519 base point coordinate) modulo 2^255 - 19. -/
def curvePrime : ℕ := 2 ^ 255 - 19

/-- Modelled from the spec: derivation of a public key from a private
scalar (PrivateKey.public_key in PyNaCl).  Keys are modelled post
Base64-decoding, as their numeric value. -/
def dhPublicKey (sk : ℕ) : ℕ := 9 ^ sk % curvePrime

/-- Modelled from the spec: the shared secret of Box(private, public)
(crypto_box_beforenm).  Diffie-Hellman symmetry,
dhShared a (dhPublicKey b) = dhShared b (dhPublicKey a),
is proved below as dhShared_symm. -/
def dhShared (sk pk : ℕ) : ℕ := pk ^ sk % curvePrime

/-- Modelled from the spec: byte i of the XSalsa20 keystream for a given
box key and nonce.  The cipher's round structure is irrelevant to the
claims; any keystream function works because message integrity is carried
by the MAC. -/
def keystream (key : ℕ) (nonce : List ℕ) (i : ℕ) : ℕ :=
  (key + nonce.foldl (fun a b => a * 256 + b) 0 + i) % 256

/-- Modelled from the spec: stream encryption/decryption, XOR of
the message bytes with the keystream starting at byte index i.
XOR is its own inverse, so the same function decrypts. -/
def xorStream (key : ℕ) (nonce : List ℕ) : ℕ → List ℕ → List ℕ
  | _, [] => []
  | i, b :: bs => (b ^^^ keystream key nonce i) :: xorStream key nonce (i + 1) bs

/-- Modelled from the spec: the ciphertext produced by one Box encryption,
the stream-encrypted body together with the Poly1305 authenticator.
The MAC is idealized as an injective function of (box key, nonce,
encrypted body) - the computational unforgeability of Poly1305 becomes
exact injectivity in the model. -/
structure BoxCiphertext where
  body : List ℕ
  tag : ℕ × List ℕ × List ℕ
  deriving DecidableEq, Repr

/-- Modelled from the spec: Box.encrypt - stream-encrypt the plaintext and
attach the authenticator over the box key, the nonce and the body. -/
def boxSeal (key : ℕ) (nonce : List ℕ) (plaintext : List ℕ) : BoxCiphertext :=
  let body := xorStream key nonce 0 plaintext
  { body := body, tag := (key, nonce, body) }

/-- Modelled from the spec: Box.decrypt - verify the authenticator against
the receiver's box key, the transported nonce and the received body; on
success stream-decrypt, otherwise fail with CryptoError (hard failure,
never garbage plaintext). -/
def boxOpen (key : ℕ) (nonce : List ℕ) (c : BoxCiphertext) :
    Except CryptoError (List ℕ) :=
  if c.tag = (key, nonce, c.body) then
    Except.ok (xorStream key nonce 0 c.body)
  else
    Except.error CryptoError.authFailure

/-- Envelope returned by ChatEncryption.encrypt_message: the dict with
keys 'encrypted' (the ciphertext) and 'nonce'.  Both fields are modelled
post Base64-decoding (Base64 is a bijective transport encoding, applied
on the way out and undone first thing on the way in). -/
structure EncryptedData where
  encrypted : BoxCiphertext
  nonce : List ℕ
  deriving DecidableEq, Repr

/-- ChatEncryption.encrypt_message from chat_security.py: build the Box
from the sender's private key and the recipient's public key, encrypt the
message under the (randomly generated, here parametric) nonce, and return
the envelope.  The plaintext is modelled by its UTF-8 byte encoding. -/
def encrypt_message (message : List ℕ) (sender_private_key : ℕ)
    (recipient_public_key : ℕ) (nonce : List ℕ) : EncryptedData :=
  let box := dhShared sender_private_key recipient_public_key
  { encrypted := boxSeal box nonce message, nonce := nonce }

/-- ChatEncryption.decrypt_message from chat_security.py: build the Box
from the recipient's private key and the sender's public key and decrypt
the envelope; authentication failure propagates as CryptoError. -/
def decrypt_message (encrypted_data : EncryptedData)
    (recipient_private_key : ℕ) (sender_public_key : ℕ) :
    Except CryptoError (List ℕ) :=
  boxOpen (dhShared recipient_private_key sender_public_key)
    encrypted_data.nonce encrypted_data.encrypted

/-- Flip bit k of byte i of a byte list (tampering primitive for C2). -/
def flipBit (bytes : List ℕ) (i k : ℕ) : List ℕ :=
  bytes.set i (bytes.getD i 0 ^^^ 2 ^ k)

/-- Diffie-Hellman symmetry: both parties derive the same box key. -/
theorem dhShared_symm (a b : ℕ) :
    dhShared a (dhPublicKey b) = dhShared b (dhPublicKey a) := by
  unfold dhShared dhPublicKey
  rw [← Nat.pow_mod, ← Nat.pow_mod, ← pow_mul, ← pow_mul, Nat.mul_comm]

/-- XOR stream encryption is an involution. -/
theorem xorStream_xorStream (key : ℕ) (nonce : List ℕ) (i : ℕ) (l : List ℕ) :
    xorStream key nonce i (xorStream key nonce i l) = l := by
  induction l generalizing i with
  | nil => rfl
  | cons b bs ih => simp [xorStream, Nat.xor_cancel_right, ih]

/-- The stream cipher preserves length. -/
theorem xorStream_length (key : ℕ) (nonce : List ℕ) (i : ℕ) (l : List ℕ) :
    (xorStream key nonce i l).length = l.length := by
  induction l generalizing i with
  | nil => rfl
  | cons b bs ih => simp [xorStream, ih]

/-- C1: for every pair of Curve25519 keypairs (a_priv, dhPublicKey a_priv)
and (b_priv, dhPublicKey b_priv) and every plaintext, decrypting with B's
private key and A's public key the envelope produced by
encrypt_message(P, A_priv, B_pub) returns exactly P: encryption followed
by decryption through the symmetric Diffie-Hellman box is the identity on
plaintexts. -/
theorem encrypt_then_decrypt_roundtrip (a_priv b_priv : ℕ)
    (message nonce : List ℕ) :
    decrypt_message
      (encrypt_message message a_priv (dhPublicKey b_priv) nonce)
      b_priv (dhPublicKey a_priv) = Except.ok message := by
  unfold decrypt_message encrypt_message boxSeal boxOpen
  simp [dhShared_symm a_priv b_priv, xorStream_xorStream]

/-- Flipping a bit of a byte changes the byte. -/
theorem xor_two_pow_ne (b k : ℕ) : b ^^^ 2 ^ k ≠ b := by
  intro h
  have h2 : b ^^^ 2 ^ k ^^^ b = b ^^^ b := by rw [h]
  rw [Nat.xor_comm b (2 ^ k), Nat.xor_cancel_right, Nat.xor_self] at h2
  exact absurd h2 (Nat.pos_iff_ne_zero.mp (Nat.pos_pow_of_pos k (by norm_num)))

/-- Flipping a bit inside the list changes the list. -/
theorem flipBit_ne (bytes : List ℕ) (i k : ℕ) (hi : i < bytes.length) :
    flipBit bytes i k ≠ bytes := by
  intro h
  have h1 := congrArg (fun l => l.getD i 0) h
  simp only [flipBit, List.getD_eq_getElem?_getD, List.getElem?_set_self hi] at h1
  rw [List.getElem?_eq_getElem hi] at h1
  simp only [Option.getD_some] at h1
  exact xor_two_pow_ne bytes[i] k h1

/-- C2: for every envelope produced by encrypt_message, flipping any single
bit of the ciphertext body, flipping any single bit of the nonce, or
replacing the authenticator by any other value, makes decrypt_message fail
with CryptoError; under tampering it never returns a plaintext different
from the original. -/
theorem decrypt_message_tamper_fails (a_priv b_priv : ℕ)
    (message nonce : List ℕ) (e : EncryptedData)
    (he : e = encrypt_message message a_priv (dhPublicKey b_priv) nonce)
    (i k j m : ℕ) (t : ℕ × List ℕ × List ℕ)
    (hi : i < message.length) (hj : j < nonce.length)
    (ht : t ≠ e.encrypted.tag) :
    decrypt_message
        { e with encrypted := { e.encrypted with
            body := flipBit e.encrypted.body i k } }
        b_priv (dhPublicKey a_priv) = Except.error CryptoError.authFailure
    ∧ decrypt_message { e with nonce := flipBit e.nonce j m }
        b_priv (dhPublicKey a_priv) = Except.error CryptoError.authFailure
    ∧ decrypt_message { e with encrypted := { e.encrypted with tag := t } }
        b_priv (dhPublicKey a_priv) = Except.error CryptoError.authFailure := by
  subst he
  have hkey := dhShared_symm a_priv b_priv
  have hbodylen : (xorStream (dhShared a_priv (dhPublicKey b_priv)) nonce 0
      message).length = message.length := xorStream_length _ _ _ _
  refine ⟨?_, ?_, ?_⟩
  · unfold decrypt_message boxOpen encrypt_message boxSeal
    rw [if_neg]
    intro hcontra
    simp only [encrypt_message, boxSeal, Prod.mk.injEq] at hcontra
    exact absurd hcontra.2.2.symm
      (flipBit_ne _ i k (by rw [hbodylen]; exact hi))
  · unfold decrypt_message boxOpen encrypt_message boxSeal
    rw [if_neg]
    intro hcontra
    simp only [encrypt_message, boxSeal, Prod.mk.injEq] at hcontra
    exact absurd hcontra.2.1.symm (flipBit_ne _ j m hj)
  · unfold decrypt_message boxOpen encrypt_message boxSeal
    rw [if_neg]
    intro hcontra
    apply ht
    simp only [encrypt_message, boxSeal] at hcontra ⊢
    rw [hcontra, hkey]

/-- Witness for C2 at a concrete keypair, message, nonce and tampering
position. -/
theorem decrypt_message_tamper_fails_witness :
    decrypt_message
        { encrypt_message [0] 1 (dhPublicKey 2) [0] with
          encrypted := { (encrypt_message [0] 1 (dhPublicKey 2) [0]).encrypted with
            body := flipBit
              (encrypt_message [0] 1 (dhPublicKey 2) [0]).encrypted.body 0 0 } }
        2 (dhPublicKey 1) = Except.error CryptoError.authFailure
    ∧ decrypt_message
        { encrypt_message [0] 1 (dhPublicKey 2) [0] with
          nonce := flipBit (encrypt_message [0] 1 (dhPublicKey 2) [0]).nonce 0 0 }
        2 (dhPublicKey 1) = Except.error CryptoError.authFailure
    ∧ decrypt_message
        { encrypt_message [0] 1 (dhPublicKey 2) [0] with
          encrypted := { (encrypt_message [0] 1 (dhPublicKey 2) [0]).encrypted with
            tag := (0, [], []) } }
        2 (dhPublicKey 1) = Except.error CryptoError.authFailure :=
  decrypt_message_tamper_fails 1 2 [0] [0]
    (encrypt_message [0] 1 (dhPublicKey 2) [0]) rfl 0 0 0 0 (0, [], [])
    (by decide) (by decide) (by decide)

end ChatSecurity

namespace ChatServer

/-- Entry of the connected_users dict of chat_server.py:
sid -> { user_id, role }. -/
structure UserInfo where
  user_id : String
  role : String
  deriving DecidableEq, Repr

/-- Persisted Message row (models.py class Message).  Timestamps are
modelled as natural numbers; id is the integer primary key assigned by
storage. -/
structure Message where
  id : ℕ
  conversation_id : String
  patient_id : Option String
  user_id : Option String
  sender_type : String
  content : String
  encrypted : Bool
  read : Bool
  read_at : Option ℕ
  attachment_url : Option String
  attachment_type : Option String
  created_at : ℕ
  deriving DecidableEq, Repr

/-- The message_data dict built by the send_message handler. -/
structure MessageData where
  id : String
  conversation_id : String
  content : String
  sender_type : String
  encrypted : Bool
  timestamp : ℕ
  patient_id : Option String
  user_id : Option String
  attachment_url : Option String
  attachment_type : Option String
  deriving DecidableEq, Repr

/-- The per-message dict built by get_conversation_history. -/
structure HistoryEntry where
  id : ℕ
  conversation_id : String
  patient_id : Option String
  user_id : Option String
  sender_type : String
  content : String
  encrypted : Bool
  read : Bool
  read_at : Option ℕ
  attachment_url : Option String
  attachment_type : Option String
  timestamp : ℕ
  deriving DecidableEq, Repr

/-- Events emitted by the handlers.  An emit to room=sid is a direct
message (the `to` field); an emit to a conversation room carries the
list of receiving sids, resolved against the room membership at emit
time (with skip_sid already excluded where the source passes it). -/
inductive Emit where
  | error (target : String) (message : String)
  | joined_conversation (target : String) (conversation_id : String) (timestamp : ℕ)
  | new_message (recipients : List String) (data : MessageData)
  | messages_read (recipients : List String) (message_ids : List ℕ)
      (user_id : String) (timestamp : ℕ)
  | typing (recipients : List String) (user_id : String)
      (conversation_id : String) (timestamp : ℕ)
  | conversation_history (target : String) (conversation_id : String)
      (messages : List HistoryEntry) (total : ℕ) (has_more : Bool)
  | unread_count (target : String) (conversation_id : String) (count : ℕ)
  | unread_counts (target : String) (total : ℕ)
      (by_conversation : List (String × ℕ))
  deriving DecidableEq, Repr

/-- Whole-server state: the two module-level dicts connected_users and
user_rooms, the Socket.IO room membership (sid, room) pairs maintained by
enter_room/leave_room, and the messages table with its autoincrement
counter.  Python dicts are modelled as association lists with unique
keys; room membership is a set (Socket.IO keeps rooms as dicts keyed by
sid), modelled as a duplicate-free pair list. -/
structure ServerState where
  connected_users : List (String × UserInfo)
  user_rooms : List (String × List String)
  rooms : List (String × String)
  db : List Message
  next_message_id : ℕ
  deriving DecidableEq, Repr

/-- Dict lookup d.get(k) on an association list. -/
def lookup {β : Type} (l : List (String × β)) (k : String) : Option β :=
  (l.find? (fun e => e.1 == k)).map (fun e => e.2)

/-- Dict assignment d[k] = v on an association list. -/
def setEntry {β : Type} (l : List (String × β)) (k : String) (v : β) :
    List (String × β) :=
  if (l.find? (fun e => e.1 == k)).isSome then
    l.map (fun e => if e.1 == k then (k, v) else e)
  else l ++ [(k, v)]

/-- Dict deletion del d[k] on an association list. -/
def eraseEntry {β : Type} (l : List (String × β)) (k : String) :
    List (String × β) :=
  l.filter (fun e => !(e.1 == k))

/-- Socket.IO enter_room: room membership is a dict keyed by sid, so
entering twice is a no-op. -/
def enter_room (rooms : List (String × String)) (sid room : String) :
    List (String × String) :=
  if (sid, room) ∈ rooms then rooms else rooms ++ [(sid, room)]

/-- Socket.IO leave_room: removes the sid from the room. -/
def leave_room (rooms : List (String × String)) (sid room : String) :
    List (String × String) :=
  rooms.filter (fun e => !(e == (sid, room)))

/-- Sids currently joined to a room. -/
def roomMembers (rooms : List (String × String)) (room : String) :
    List String :=
  (rooms.filter (fun e => e.2 == room)).map (fun e => e.1)

/-- Recipients resolved by sio.emit(..., room=conversation_id,
skip_sid=skip). -/
def broadcastRecipients (rooms : List (String × String)) (room : String)
    (skip : Option String) : List String :=
  match skip with
  | none => roomMembers rooms room
  | some s => (roomMembers rooms room).filter (fun x => !(x == s))

/-- Module-level import facts of chat_server.py that decide whether a
name lookup succeeds at handler run time: uuid is imported only inside
the `if __name__ == "__main__"` guard (bound when run as a script, unbound
when imported as a server module), and func (sqlalchemy.func) is never
imported at all, so func_imported is false in every execution mode. -/
structure ModuleCtx where
  uuid_imported : Bool
  func_imported : Bool
  deriving DecidableEq, Repr

/-- Unhandled Python exception escaping a handler. -/
inductive PyError where
  | nameError (name : String)
  deriving DecidableEq, Repr

/-- The disconnect handler: if the sid is connected, leave every room
recorded in user_rooms for its user id, delete the user_rooms entry, and
delete the connected_users entry; an unknown sid is a no-op. -/
def disconnect (st : ServerState) (sid : String) : ServerState :=
  match lookup st.connected_users sid with
  | none => st
  | some info =>
    let st1 :=
      match lookup st.user_rooms info.user_id with
      | none => st
      | some roomsOfUser =>
        { st with
          rooms := roomsOfUser.foldl (fun acc room => leave_room acc sid room)
            st.rooms,
          user_rooms := eraseEntry st.user_rooms info.user_id }
    { st1 with connected_users := eraseEntry st1.connected_users sid }

/-- The join_conversation handler: reject unauthenticated sids and
missing/empty conversation ids (Python truthiness: `if not
conversation_id`); otherwise enter the Socket.IO room, record the room in
user_rooms (creating the entry, appending only if absent), and ack with
joined_conversation to the requester only. -/
def join_conversation (st : ServerState) (sid : String)
    (conversation_id : Option String) (now : ℕ) :
    ServerState × List Emit :=
  match lookup st.connected_users sid with
  | none => (st, [Emit.error sid "Não autenticado"])
  | some info =>
    match conversation_id with
    | none => (st, [Emit.error sid "ID de conversação não fornecido"])
    | some conv =>
      if conv = "" then (st, [Emit.error sid "ID de conversação não fornecido"])
      else
        let rooms1 := enter_room st.rooms sid conv
        let user_rooms1 :=
          if (lookup st.user_rooms info.user_id).isSome then st.user_rooms
          else st.user_rooms ++ [(info.user_id, [])]
        let current := (lookup user_rooms1 info.user_id).getD []
        let user_rooms2 :=
          if conv ∈ current then user_rooms1
          else setEntry user_rooms1 info.user_id (current ++ [conv])
        ({ st with rooms := rooms1, user_rooms := user_rooms2 },
         [Emit.joined_conversation sid conv now])

/-- The get_conversation_metadata helper: the participants of a
conversation are read off the first persisted message of that
conversation (select ... limit(1), first in insertion order); when the
conversation has no messages all fields are null. -/
structure ConversationMetadata where
  conversation_id : String
  patient_id : Option String
  staff_id : Option String
  created_at : Option ℕ
  deriving DecidableEq, Repr

def get_conversation_metadata (db : List Message) (conversation_id : String) :
    ConversationMetadata :=
  match db.find? (fun m => m.conversation_id == conversation_id) with
  | none =>
    { conversation_id := conversation_id, patient_id := none,
      staff_id := none, created_at := none }
  | some m =>
    { conversation_id := conversation_id, patient_id := m.patient_id,
      staff_id := m.user_id, created_at := some m.created_at }

/-- Payload of the send_message event; absent dict keys are none. -/
structure SendData where
  conversation_id : Option String
  content : Option String
  encrypted : Option Bool
  attachment_url : Option String
  attachment_type : Option String
  deriving DecidableEq, Repr

/-- The save_message helper: insert a Message row built from the
message_data dict; read defaults to false, read_at to null, id to the
storage-assigned key, created_at to the insertion time. -/
def save_message (st : ServerState) (data : MessageData) (now : ℕ) :
    ServerState :=
  { st with
    db := st.db ++ [{
      id := st.next_message_id,
      conversation_id := data.conversation_id,
      patient_id := data.patient_id,
      user_id := data.user_id,
      sender_type := data.sender_type,
      content := data.content,
      encrypted := data.encrypted,
      read := false,
      read_at := none,
      attachment_url := data.attachment_url,
      attachment_type := data.attachment_type,
      created_at := now }],
    next_message_id := st.next_message_id + 1 }

/-- The send_message handler.  After the authentication and
required-field checks the success path evaluates str(uuid.uuid4());
when the module was imported (uuid_imported = false) this raises an
unhandled NameError before the message record is built, so nothing is
emitted or persisted.  When uuid is bound (script mode) the handler
builds the record (role-dependent id fields, optional attachments),
broadcasts new_message to the whole room (sender included) and persists
via save_message. -/
def send_message (ctx : ModuleCtx) (st : ServerState) (sid : String)
    (data : SendData) (new_uuid : String) (now : ℕ) :
    Except PyError (ServerState × List Emit) :=
  match lookup st.connected_users sid with
  | none => Except.ok (st, [Emit.error sid "Não autenticado"])
  | some info =>
    if data.conversation_id.isSome ∧ data.content.isSome then
      if ctx.uuid_imported then
        let conv := data.conversation_id.getD ""
        let base : MessageData := {
          id := new_uuid,
          conversation_id := conv,
          content := data.content.getD "",
          sender_type := info.role,
          encrypted := data.encrypted.getD true,
          timestamp := now,
          patient_id := none,
          user_id := none,
          attachment_url := none,
          attachment_type := none }
        let withIds :=
          if info.role = "staff" then
            { base with
              user_id := some info.user_id,
              patient_id := (get_conversation_metadata st.db conv).patient_id }
          else
            { base with patient_id := some info.user_id, user_id := none }
        let msg :=
          if data.attachment_url.isSome then
            { withIds with
              attachment_url := data.attachment_url,
              attachment_type := some (data.attachment_type.getD "file") }
          else withIds
        Except.ok (save_message st msg now,
          [Emit.new_message (broadcastRecipients st.rooms conv none) msg])
      else
        Except.error (PyError.nameError "uuid")
    else
      Except.ok (st, [Emit.error sid "Dados incompletos"])

/-- Payload of the mark_as_read event. -/
structure ReadData where
  message_ids : Option (List ℕ)
  conversation_id : Option String
  deriving DecidableEq, Repr

/-- One iteration of the mark_as_read loop: find the first message with
the given id and set read=true, read_at=now. -/
def markOne : List Message → ℕ → ℕ → List Message
  | [], _, _ => []
  | m :: rest, mid, now =>
    if m.id = mid then { m with read := true, read_at := some now } :: rest
    else m :: markOne rest mid now

/-- The mark_as_read handler: reject unauthenticated sids and
missing/empty id lists; mark each resolvable id (unresolvable ids are
silently skipped); then, only when the payload carries a non-empty
conversation_id, broadcast one messages_read event to the room excluding
the requester. -/
def mark_as_read (st : ServerState) (sid : String) (data : ReadData)
    (now : ℕ) : ServerState × List Emit :=
  match lookup st.connected_users sid with
  | none => (st, [Emit.error sid "Não autenticado"])
  | some info =>
    let ids := data.message_ids.getD []
    if ids = [] then (st, [Emit.error sid "IDs de mensagens não fornecidos"])
    else
      let db1 := ids.foldl (fun acc mid => markOne acc mid now) st.db
      let emits :=
        match data.conversation_id with
        | some conv =>
          if conv = "" then []
          else
            [Emit.messages_read
              (broadcastRecipients st.rooms conv (some sid))
              ids info.user_id now]
        | none => []
      ({ st with db := db1 }, emits)

/-- Payload of the get_conversation_history event. -/
structure HistoryData where
  conversation_id : Option String
  limit : Option ℕ
  offset : Option ℕ
  deriving DecidableEq, Repr

/-- The per-message dict built inside get_conversation_history. -/
def formatMessage (m : Message) : HistoryEntry :=
  { id := m.id, conversation_id := m.conversation_id,
    patient_id := m.patient_id, user_id := m.user_id,
    sender_type := m.sender_type, content := m.content,
    encrypted := m.encrypted, read := m.read, read_at := m.read_at,
    attachment_url := m.attachment_url,
    attachment_type := m.attachment_type, timestamp := m.created_at }

/-- Comparison used to model ORDER BY created_at DESC (ties resolved
stably, a legal refinement of the unspecified SQL tie order). -/
def newerFirst (a b : Message) : Bool := b.created_at ≤ a.created_at

/-- The get_conversation_history handler: reject unauthenticated sids and
missing/empty conversation ids; otherwise select the conversation's
messages ordered by creation time descending, apply offset then limit,
format them, and answer the requester with total = returned count and
has_more set exactly when the returned count equals limit. -/
def get_conversation_history (st : ServerState) (sid : String)
    (data : HistoryData) : ServerState × List Emit :=
  match lookup st.connected_users sid with
  | none => (st, [Emit.error sid "Não autenticado"])
  | some _ =>
    match data.conversation_id with
    | none => (st, [Emit.error sid "ID de conversação não fornecido"])
    | some conv =>
      if conv = "" then
        (st, [Emit.error sid "ID de conversação não fornecido"])
      else
        let lim := data.limit.getD 50
        let off := data.offset.getD 0
        let sorted :=
          (st.db.filter (fun m => m.conversation_id == conv)).mergeSort
            newerFirst
        let message_list := ((sorted.drop off).take lim).map formatMessage
        (st, [Emit.conversation_history sid conv message_list
          message_list.length (message_list.length == lim)])

/-- Payload of the get_unread_count event. -/
structure UnreadData where
  conversation_id : Option String
  deriving DecidableEq, Repr

/-- The get_unread_count handler.  After the authentication check the
very first query expression evaluates func.count(), and func is unbound
at module scope in every execution mode (never imported), so both the
single-conversation and the breakdown branch raise NameError inside the
handler's try block, which converts it into a single error event to the
requester; the counting logic is therefore unreachable.  The
func_imported = true branch embeds that unreachable intended logic. -/
def get_unread_count (ctx : ModuleCtx) (st : ServerState) (sid : String)
    (data : UnreadData) : ServerState × List Emit :=
  match lookup st.connected_users sid with
  | none => (st, [Emit.error sid "Não autenticado"])
  | some info =>
    let senderCondition := if info.role = "staff" then "patient" else "staff"
    if ctx.func_imported = false then
      (st, [Emit.error sid "Erro ao obter contagem: name func is not defined"])
    else
      match data.conversation_id with
      | some conv =>
        if conv = "" then
          let relevant := st.db.filter (fun m =>
            (if info.role = "staff" then true else
              m.patient_id == some info.user_id)
            && m.sender_type == senderCondition && m.read == false)
          let convs := (relevant.map (fun m => m.conversation_id)).eraseDups
          let counts := convs.map (fun c =>
            (c, (relevant.filter (fun m => m.conversation_id == c)).length))
          (st, [Emit.unread_counts sid
            (counts.foldl (fun acc e => acc + e.2) 0) counts])
        else
          let count := (st.db.filter (fun m =>
            m.conversation_id == conv && m.sender_type == senderCondition
              && m.read == false)).length
          (st, [Emit.unread_count sid conv count])
      | none =>
        let relevant := st.db.filter (fun m =>
          (if info.role = "staff" then true else
            m.patient_id == some info.user_id)
          && m.sender_type == senderCondition && m.read == false)
        let convs := (relevant.map (fun m => m.conversation_id)).eraseDups
        let counts := convs.map (fun c =>
          (c, (relevant.filter (fun m => m.conversation_id == c)).length))
        (st, [Emit.unread_counts sid
          (counts.foldl (fun acc e => acc + e.2) 0) counts])

/-- Replacing the value under an existing key keeps that key findable
with the new value. -/
theorem find?_map_replace {β : Type} (l : List (String × β)) (k : String)
    (v : β) (h : (l.find? (fun e => e.1 == k)).isSome = true) :
    (l.map (fun e => if e.1 == k then (k, v) else e)).find?
      (fun e => e.1 == k) = some (k, v) := by
  induction l with
  | nil => simp at h
  | cons e rest ih =>
    rw [List.map_cons]
    by_cases he : (e.1 == k) = true
    · simp [List.find?_cons, he]
    · simp only [he, Bool.false_eq_true, if_false]
      rw [List.find?_cons] at h ⊢
      simp only [he] at h ⊢
      exact ih h

/-- Dict assignment makes the key look up to the new value. -/
theorem lookup_setEntry_self {β : Type} (l : List (String × β)) (k : String)
    (v : β) : lookup (setEntry l k v) k = some v := by
  unfold setEntry
  by_cases h : (l.find? (fun e => e.1 == k)).isSome = true
  · rw [if_pos h]
    unfold lookup
    rw [find?_map_replace l k v h]
    rfl
  · rw [if_neg h]
    unfold lookup
    rw [List.find?_append]
    have hf : l.find? (fun e => e.1 == k) = none := by
      cases hx : l.find? (fun e => e.1 == k)
      · rfl
      · rw [hx] at h; simp at h
    rw [hf]
    simp

/-- Appending a fresh key makes it look up to the appended value. -/
theorem lookup_append_single {β : Type} (l : List (String × β)) (k : String)
    (v : β) (h : lookup l k = none) :
    lookup (l ++ [(k, v)]) k = some v := by
  unfold lookup at h ⊢
  rw [List.find?_append]
  have hf : l.find? (fun e => e.1 == k) = none := by
    cases hx : l.find? (fun e => e.1 == k)
    · rfl
    · rw [hx] at h; simp at h
  rw [hf]
  simp

/-- Entering a room makes the pair a member. -/
theorem mem_enter_room (rooms : List (String × String)) (sid conv : String) :
    (sid, conv) ∈ enter_room rooms sid conv := by
  unfold enter_room
  by_cases h : (sid, conv) ∈ rooms
  · rw [if_pos h]; exact h
  · rw [if_neg h]; simp

/-- Entering a room yields exactly one membership pair when there was at
most one before. -/
theorem count_enter_room (rooms : List (String × String)) (sid conv : String)
    (h : rooms.count (sid, conv) ≤ 1) :
    (enter_room rooms sid conv).count (sid, conv) = 1 := by
  unfold enter_room
  by_cases hmem : (sid, conv) ∈ rooms
  · rw [if_pos hmem]
    have := List.count_pos_iff.mpr hmem
    omega
  · rw [if_neg hmem]
    rw [List.count_append, List.count_eq_zero.mpr hmem]
    simp

/-- A sid occurs in a room's member list as often as the membership pair
occurs in the room table. -/
theorem count_roomMembers (rooms : List (String × String))
    (sid conv : String) :
    (roomMembers rooms conv).count sid = rooms.count (sid, conv) := by
  induction rooms with
  | nil => rfl
  | cons e rest ih =>
    obtain ⟨a, b⟩ := e
    unfold roomMembers at ih ⊢
    by_cases hb : b = conv
    · subst hb
      by_cases ha : a = sid
      · subst ha
        simp [List.filter_cons, List.count_cons, ih]
      · simp [List.filter_cons, List.count_cons, ha, ih, Prod.ext_iff]
    · simp [List.filter_cons, List.count_cons, hb, ih, Prod.ext_iff]

/-- Concrete staff connection fixture used by the witnesses. -/
def infoStaff : UserInfo := { user_id := "123", role := "staff" }

/-- Concrete patient connection fixture used by the witnesses. -/
def infoPatient : UserInfo := { user_id := "77", role := "patient" }

/-- Concrete persisted message fixture used by the witnesses. -/
def msg1 : Message :=
  { id := 1, conversation_id := "c1", patient_id := some "77",
    user_id := none, sender_type := "patient", content := "ola",
    encrypted := true, read := false, read_at := none,
    attachment_url := none, attachment_type := none, created_at := 10 }

/-- Concrete server-state fixture used by the witnesses: two
authenticated connections, both joined to conversation c1, one persisted
message. -/
def st0 : ServerState :=
  { connected_users := [("s1", infoStaff), ("s2", infoPatient)],
    user_rooms := [("123", ["c1"]), ("77", ["c1"])],
    rooms := [("s1", "c1"), ("s2", "c1")],
    db := [msg1],
    next_message_id := 2 }

/-- C3: for every authenticated connection, a send_message payload
missing content (or conversation_id) produces exactly one error event to
the sender, no new_message broadcast, and no persisted record (the state
is returned unchanged). -/
theorem send_message_missing_field (ctx : ModuleCtx) (st : ServerState)
    (sid : String) (data : SendData) (info : UserInfo) (u : String) (now : ℕ)
    (hauth : lookup st.connected_users sid = some info)
    (hmiss : data.content = none ∨ data.conversation_id = none) :
    send_message ctx st sid data u now =
      Except.ok (st, [Emit.error sid "Dados incompletos"]) := by
  unfold send_message
  rw [hauth]
  dsimp only
  have hval : ¬ (data.conversation_id.isSome = true ∧ data.content.isSome = true) := by
    rcases hmiss with h | h <;> simp [h]
  rw [if_neg hval]

/-- Witness for C3: an authenticated staff connection sending a payload
without content. -/
theorem send_message_missing_field_witness :
    send_message ⟨false, false⟩ st0 "s1"
      { conversation_id := some "c1", content := none, encrypted := none,
        attachment_url := none, attachment_type := none } "u" 5 =
      Except.ok (st0, [Emit.error "s1" "Dados incompletos"]) :=
  send_message_missing_field ⟨false, false⟩ st0 "s1"
    { conversation_id := some "c1", content := none, encrypted := none,
      attachment_url := none, attachment_type := none }
    infoStaff "u" 5 (by decide) (Or.inl rfl)

/-- C10: when chat_server.py is imported as a server module, the name
uuid is unbound (it is imported only inside the __main__ guard), so every
valid send raises an unhandled NameError before the message record is
built - nothing is broadcast and nothing is persisted - while the
validation-error path still completes normally. -/
theorem send_message_uuid_unbound (st : ServerState) (sid : String)
    (data bad : SendData) (info : UserInfo) (u : String) (now : ℕ)
    (hauth : lookup st.connected_users sid = some info)
    (hconv : data.conversation_id.isSome = true)
    (hcont : data.content.isSome = true)
    (hbad : bad.content = none) :
    send_message ⟨false, false⟩ st sid data u now =
      Except.error (PyError.nameError "uuid")
    ∧ send_message ⟨false, false⟩ st sid bad u now =
      Except.ok (st, [Emit.error sid "Dados incompletos"]) := by
  constructor
  · unfold send_message
    rw [hauth]
    dsimp only
    rw [if_pos ⟨hconv, hcont⟩]
    rfl
  · unfold send_message
    rw [hauth]
    dsimp only
    rw [if_neg (by simp [hbad])]

/-- Witness for C10: a structurally valid patient send and a
content-missing send against the same imported-module context. -/
theorem send_message_uuid_unbound_witness :
    send_message ⟨false, false⟩ st0 "s2"
      { conversation_id := some "c1", content := some "oi", encrypted := none,
        attachment_url := none, attachment_type := none } "u" 5 =
      Except.error (PyError.nameError "uuid")
    ∧ send_message ⟨false, false⟩ st0 "s2"
      { conversation_id := some "c1", content := none, encrypted := none,
        attachment_url := none, attachment_type := none } "u" 5 =
      Except.ok (st0, [Emit.error "s2" "Dados incompletos"]) :=
  send_message_uuid_unbound st0 "s2"
    { conversation_id := some "c1", content := some "oi", encrypted := none,
      attachment_url := none, attachment_type := none }
    { conversation_id := some "c1", content := none, encrypted := none,
      attachment_url := none, attachment_type := none }
    infoPatient "u" 5 (by decide) rfl rfl rfl

/-- Marking a message read leaves the id column untouched. -/
theorem markOne_map_id (db : List Message) (mid now : ℕ) :
    (markOne db mid now).map Message.id = db.map Message.id := by
  induction db with
  | nil => rfl
  | cons m rest ih =>
    simp only [markOne]
    by_cases h : m.id = mid
    · simp [h]
    · simp [h, ih]

/-- With unique message ids, one pass of the mark_as_read loop is a
pointwise conditional update. -/
theorem markOne_eq_map (db : List Message) (mid now : ℕ)
    (hnodup : (db.map Message.id).Nodup) :
    markOne db mid now =
      db.map (fun m => if m.id = mid then
        { m with read := true, read_at := some now } else m) := by
  induction db with
  | nil => rfl
  | cons m rest ih =>
    rw [List.map_cons] at hnodup
    simp only [markOne, List.map_cons]
    by_cases h : m.id = mid
    · rw [if_pos h, if_pos h]
      have hnotin : ∀ x ∈ rest, ¬ (x.id = mid) := by
        intro x hx hxm
        exact (List.nodup_cons.mp hnodup).1
          (h ▸ hxm ▸ List.mem_map_of_mem Message.id hx)
      congr 1
      have : rest.map (fun x => if x.id = mid then
          { x with read := true, read_at := some now } else x) = rest.map id := by
        apply List.map_congr_left
        intro x hx
        rw [if_neg (hnotin x hx)]
        rfl
      rw [this, List.map_id]
    · rw [if_neg h, if_neg h, ih (List.nodup_cons.mp hnodup).2]

/-- With unique message ids, the whole mark_as_read loop marks exactly
the rows whose id occurs in the requested list. -/
theorem foldl_markOne_eq_map (ids : List ℕ) (db : List Message) (now : ℕ)
    (hnodup : (db.map Message.id).Nodup) :
    ids.foldl (fun acc mid => markOne acc mid now) db =
      db.map (fun m => if m.id ∈ ids then
        { m with read := true, read_at := some now } else m) := by
  induction ids generalizing db with
  | nil => simp
  | cons mid rest ih =>
    rw [List.foldl_cons, ih (markOne db mid now)
        (by rw [markOne_map_id]; exact hnodup),
      markOne_eq_map db mid now hnodup, List.map_map]
    apply List.map_congr_left
    intro m _
    by_cases h1 : m.id = mid <;> by_cases h2 : m.id ∈ rest <;>
      simp [h1, h2, Function.comp]

/-- C5 counterexample: an authenticated requester marks a non-empty list
of ids but omits conversation_id from the payload; the handler then emits
no event at all, while the claim promises exactly one messages_read
broadcast for every non-empty id list. -/
theorem mark_as_read_no_conversation_counterexample :
    (mark_as_read st0 "s1"
      { message_ids := some [1], conversation_id := none } 5).2 = [] := by
  rfl

/-- C5 as amended: provided the payload also carries a (non-empty)
conversation_id, every id resolving to a persisted message gets read=true
and read_at=now, unresolvable ids are silently skipped, and exactly one
messages_read event with the id list, the requester's user id and the
timestamp goes to the room excluding the requester; an id list that is
missing or empty is answered with a single error event and no state
change. -/
theorem mark_as_read_spec (st : ServerState) (sid : String)
    (data bad : ReadData) (info : UserInfo) (ids : List ℕ) (conv : String)
    (now : ℕ)
    (hauth : lookup st.connected_users sid = some info)
    (hids : data.message_ids = some ids) (hne : ids ≠ [])
    (hconv : data.conversation_id = some conv) (hcne : ¬ (conv = ""))
    (hnodup : (st.db.map Message.id).Nodup)
    (hbad : bad.message_ids.getD [] = []) :
    mark_as_read st sid data now =
      ({ st with db := st.db.map (fun m => if m.id ∈ ids then
            { m with read := true, read_at := some now } else m) },
       [Emit.messages_read (broadcastRecipients st.rooms conv (some sid))
          ids info.user_id now])
    ∧ mark_as_read st sid bad now =
        (st, [Emit.error sid "IDs de mensagens não fornecidos"]) := by
  constructor
  · unfold mark_as_read
    rw [hauth]
    dsimp only
    simp only [hids, Option.getD_some]
    rw [if_neg hne, hconv]
    dsimp only
    rw [if_neg hcne, foldl_markOne_eq_map ids st.db now hnodup]
  · unfold mark_as_read
    rw [hauth]
    dsimp only
    rw [hbad, if_pos rfl]

/-- Witness for C5 (amended): requester s1 marks the resolvable id 1 and
the unresolvable id 99 in conversation c1; and an empty id list is
rejected. -/
theorem mark_as_read_spec_witness :
    mark_as_read st0 "s1"
      { message_ids := some [1, 99], conversation_id := some "c1" } 5 =
      ({ st0 with db := st0.db.map (fun m => if m.id ∈ [1, 99] then
            { m with read := true, read_at := some 5 } else m) },
       [Emit.messages_read (broadcastRecipients st0.rooms "c1" (some "s1"))
          [1, 99] infoStaff.user_id 5])
    ∧ mark_as_read st0 "s1"
        { message_ids := none, conversation_id := some "c1" } 5 =
        (st0, [Emit.error "s1" "IDs de mensagens não fornecidos"]) :=
  mark_as_read_spec st0 "s1"
    { message_ids := some [1, 99], conversation_id := some "c1" }
    { message_ids := none, conversation_id := some "c1" }
    infoStaff [1, 99] "c1" 5 (by decide) rfl (by decide) rfl (by decide)
    (by decide) rfl

/-- Projection: the message record carried by the single new_message
broadcast of a successful handler run, none when no such broadcast
happened. -/
def newMessageOf (r : Except PyError (ServerState × List Emit)) :
    Option MessageData :=
  match r with
  | Except.ok (_, [Emit.new_message _ m]) => some m
  | _ => none

/-- Projection: the recipient list of the single new_message broadcast. -/
def newMessageRecipients (r : Except PyError (ServerState × List Emit)) :
    Option (List String) :=
  match r with
  | Except.ok (_, [Emit.new_message recips _]) => some recips
  | _ => none

/-- Projection: the server state after a handler run (the unchanged input
state when the handler died with an unhandled exception). -/
def stateOf (r : Except PyError (ServerState × List Emit))
    (fallback : ServerState) : ServerState :=
  match r with
  | Except.ok (s, _) => s
  | Except.error _ => fallback

/-- Metadata lookup on a conversation with no persisted messages leaves
the patient participant unresolved. -/
theorem get_conversation_metadata_empty (db : List Message) (conv : String)
    (h : ∀ m ∈ db, m.conversation_id ≠ conv) :
    (get_conversation_metadata db conv).patient_id = none := by
  unfold get_conversation_metadata
  have hfind : db.find? (fun m => m.conversation_id == conv) = none := by
    rw [List.find?_eq_none]
    intro m hm
    simp [h m hm]
  rw [hfind]

/-- C4: a valid send from an authenticated connection broadcasts exactly
one new_message whose record carries sender_type = the connection's role;
a patient sender yields patient_id = the connection's participant id and
user_id = null; a staff sender yields user_id = the connection's
participant id and patient_id = the patient participant read off the
conversation's first persisted message, left null when the conversation
has no prior messages; the persisted row agrees with the broadcast record
on these fields.  (uuid_imported = true: the construction is reachable
only when the module runs as a script, see C10.) -/
theorem send_message_role_fields (st : ServerState) (sid : String)
    (data : SendData) (info : UserInfo) (u : String) (now : ℕ) (conv : String)
    (r : Except PyError (ServerState × List Emit))
    (hr : r = send_message ⟨true, false⟩ st sid data u now)
    (hauth : lookup st.connected_users sid = some info)
    (hconv : data.conversation_id = some conv)
    (hcont : data.content.isSome = true) :
    (newMessageOf r).map MessageData.sender_type = some info.role
    ∧ newMessageRecipients r = some (broadcastRecipients st.rooms conv none)
    ∧ (info.role = "patient" →
        (newMessageOf r).map MessageData.patient_id = some (some info.user_id)
        ∧ (newMessageOf r).map MessageData.user_id = some none)
    ∧ (info.role = "staff" →
        (newMessageOf r).map MessageData.user_id = some (some info.user_id)
        ∧ (newMessageOf r).map MessageData.patient_id =
            some (get_conversation_metadata st.db conv).patient_id)
    ∧ (info.role = "staff" → (∀ m ∈ st.db, m.conversation_id ≠ conv) →
        (newMessageOf r).map MessageData.patient_id = some none)
    ∧ ((stateOf r st).db.getLast?).map
          (fun m => (m.sender_type, m.patient_id, m.user_id)) =
        (newMessageOf r).map
          (fun m => (m.sender_type, m.patient_id, m.user_id)) := by
  subst hr
  unfold send_message
  rw [hauth]
  dsimp only
  rw [if_pos ⟨by simp [hconv], hcont⟩, if_pos rfl]
  simp only [hconv, Option.getD_some]
  by_cases hrole : info.role = "staff"
  · by_cases hatt : data.attachment_url.isSome = true
    all_goals refine ⟨?_, ?_, ?_, ?_, ?_, ?_⟩
    · simp [hrole, hatt, newMessageOf]
    · simp [hrole, hatt, newMessageRecipients]
    · intro hpat; rw [hrole] at hpat; exact absurd hpat.symm (by decide)
    · intro _; exact ⟨by simp [hrole, hatt, newMessageOf],
        by simp [hrole, hatt, newMessageOf]⟩
    · intro _ h
      simp [hrole, hatt, newMessageOf, get_conversation_metadata_empty st.db conv h]
    · simp [hrole, hatt, newMessageOf, stateOf, save_message]
    · simp [hrole, hatt, newMessageOf]
    · simp [hrole, hatt, newMessageRecipients]
    · intro hpat; rw [hrole] at hpat; exact absurd hpat.symm (by decide)
    · intro _; exact ⟨by simp [hrole, hatt, newMessageOf],
        by simp [hrole, hatt, newMessageOf]⟩
    · intro _ h
      simp [hrole, hatt, newMessageOf, get_conversation_metadata_empty st.db conv h]
    · simp [hrole, hatt, newMessageOf, stateOf, save_message]
  · by_cases hatt : data.attachment_url.isSome = true
    all_goals refine ⟨?_, ?_, ?_, ?_, ?_, ?_⟩
    · simp [hrole, hatt, newMessageOf]
    · simp [hrole, hatt, newMessageRecipients]
    · intro _; exact ⟨by simp [hrole, hatt, newMessageOf],
        by simp [hrole, hatt, newMessageOf]⟩
    · intro hst; exact absurd hst hrole
    · intro hst; exact absurd hst hrole
    · simp [hrole, hatt, newMessageOf, stateOf, save_message]
    · simp [hrole, hatt, newMessageOf]
    · simp [hrole, hatt, newMessageRecipients]
    · intro _; exact ⟨by simp [hrole, hatt, newMessageOf],
        by simp [hrole, hatt, newMessageOf]⟩
    · intro hst; exact absurd hst hrole
    · intro hst; exact absurd hst hrole
    · simp [hrole, hatt, newMessageOf, stateOf, save_message]

/-- Witness for C4: the staff connection of st0 sends into conversation
c1, whose first persisted message names patient 77. -/
theorem send_message_role_fields_witness :
    (newMessageOf (send_message ⟨true, false⟩ st0 "s1"
        { conversation_id := some "c1", content := some "oi",
          encrypted := none, attachment_url := none, attachment_type := none }
        "u" 5)).map MessageData.sender_type = some infoStaff.role
    ∧ newMessageRecipients (send_message ⟨true, false⟩ st0 "s1"
        { conversation_id := some "c1", content := some "oi",
          encrypted := none, attachment_url := none, attachment_type := none }
        "u" 5) = some (broadcastRecipients st0.rooms "c1" none)
    ∧ (infoStaff.role = "patient" →
        (newMessageOf (send_message ⟨true, false⟩ st0 "s1"
            { conversation_id := some "c1", content := some "oi",
              encrypted := none, attachment_url := none,
              attachment_type := none } "u" 5)).map MessageData.patient_id =
          some (some infoStaff.user_id)
        ∧ (newMessageOf (send_message ⟨true, false⟩ st0 "s1"
            { conversation_id := some "c1", content := some "oi",
              encrypted := none, attachment_url := none,
              attachment_type := none } "u" 5)).map MessageData.user_id =
          some none)
    ∧ (infoStaff.role = "staff" →
        (newMessageOf (send_message ⟨true, false⟩ st0 "s1"
            { conversation_id := some "c1", content := some "oi",
              encrypted := none, attachment_url := none,
              attachment_type := none } "u" 5)).map MessageData.user_id =
          some (some infoStaff.user_id)
        ∧ (newMessageOf (send_message ⟨true, false⟩ st0 "s1"
            { conversation_id := some "c1", content := some "oi",
              encrypted := none, attachment_url := none,
              attachment_type := none } "u" 5)).map MessageData.patient_id =
          some (get_conversation_metadata st0.db "c1").patient_id)
    ∧ (infoStaff.role = "staff" → (∀ m ∈ st0.db, m.conversation_id ≠ "c1") →
        (newMessageOf (send_message ⟨true, false⟩ st0 "s1"
            { conversation_id := some "c1", content := some "oi",
              encrypted := none, attachment_url := none,
              attachment_type := none } "u" 5)).map MessageData.patient_id =
          some none)
    ∧ ((stateOf (send_message ⟨true, false⟩ st0 "s1"
          { conversation_id := some "c1", content := some "oi",
            encrypted := none, attachment_url := none,
            attachment_type := none } "u" 5) st0).db.getLast?).map
          (fun m => (m.sender_type, m.patient_id, m.user_id)) =
        (newMessageOf (send_message ⟨true, false⟩ st0 "s1"
          { conversation_id := some "c1", content := some "oi",
            encrypted := none, attachment_url := none,
            attachment_type := none } "u" 5)).map
          (fun m => (m.sender_type, m.patient_id, m.user_id)) :=
  send_message_role_fields st0 "s1"
    { conversation_id := some "c1", content := some "oi", encrypted := none,
      attachment_url := none, attachment_type := none }
    infoStaff "u" 5 "c1" _ rfl (by decide) rfl rfl

/-- C6: for an authenticated history request the handler answers with the
conversation's persisted messages sorted most-recent-first, after
skipping offset and taking at most limit of them; the response's
has_more flag is true exactly when the returned count equals limit, and
every returned entry is the formatting of a persisted message of that
conversation. -/
theorem get_conversation_history_spec (st : ServerState) (sid : String)
    (data : HistoryData) (info : UserInfo) (conv : String)
    (hauth : lookup st.connected_users sid = some info)
    (hconv : data.conversation_id = some conv) (hcne : ¬ (conv = "")) :
    get_conversation_history st sid data =
      (st, [Emit.conversation_history sid conv
        (((((st.db.filter (fun m => m.conversation_id == conv)).mergeSort
              newerFirst).drop (data.offset.getD 0)).take
              (data.limit.getD 50)).map formatMessage)
        (((((st.db.filter (fun m => m.conversation_id == conv)).mergeSort
              newerFirst).drop (data.offset.getD 0)).take
              (data.limit.getD 50)).map formatMessage).length
        ((((((st.db.filter (fun m => m.conversation_id == conv)).mergeSort
              newerFirst).drop (data.offset.getD 0)).take
              (data.limit.getD 50)).map formatMessage).length ==
          data.limit.getD 50)])
    ∧ ((st.db.filter (fun m => m.conversation_id == conv)).mergeSort
        newerFirst).Perm (st.db.filter (fun m => m.conversation_id == conv))
    ∧ ((st.db.filter (fun m => m.conversation_id == conv)).mergeSort
        newerFirst).Pairwise (fun a b => b.created_at ≤ a.created_at)
    ∧ (((((st.db.filter (fun m => m.conversation_id == conv)).mergeSort
          newerFirst).drop (data.offset.getD 0)).take
          (data.limit.getD 50)).map formatMessage).length ≤ data.limit.getD 50
    ∧ ((((((st.db.filter (fun m => m.conversation_id == conv)).mergeSort
          newerFirst).drop (data.offset.getD 0)).take
          (data.limit.getD 50)).map formatMessage).length =
            data.limit.getD 50 ↔
        (((((st.db.filter (fun m => m.conversation_id == conv)).mergeSort
          newerFirst).drop (data.offset.getD 0)).take
          (data.limit.getD 50)).map formatMessage).length ==
            data.limit.getD 50)
    ∧ ∀ e ∈ ((((st.db.filter (fun m => m.conversation_id == conv)).mergeSort
          newerFirst).drop (data.offset.getD 0)).take
          (data.limit.getD 50)).map formatMessage,
        ∃ m ∈ st.db, m.conversation_id = conv ∧ e = formatMessage m := by
  refine ⟨?_, ?_, ?_, ?_, ?_, ?_⟩
  · unfold get_conversation_history
    rw [hauth]
    dsimp only
    rw [hconv]
    dsimp only
    rw [if_neg hcne]
  · exact List.mergeSort_perm _ _
  · have hs := @List.sorted_mergeSort Message newerFirst
      (fun a b c hab hbc => by
        simp only [newerFirst, decide_eq_true_eq] at hab hbc ⊢
        exact le_trans hbc hab)
      (fun a b => by
        simp only [newerFirst]
        rcases Nat.le_total b.created_at a.created_at with h | h <;>
          simp [h])
      (st.db.filter (fun m => m.conversation_id == conv))
    exact hs.imp (fun h => by
      simpa only [newerFirst, decide_eq_true_eq] using h)
  · rw [List.length_map, List.length_take]
    exact Nat.min_le_left _ _
  · exact beq_iff_eq.symm
  · intro e he
    obtain ⟨x, hx, hxe⟩ := List.mem_map.mp he
    have hx2 : x ∈ (st.db.filter
        (fun m => m.conversation_id == conv)).mergeSort newerFirst :=
      List.mem_of_mem_drop (List.mem_of_mem_take hx)
    have hx3 : x ∈ st.db.filter (fun m => m.conversation_id == conv) :=
      (List.mergeSort_perm _ _).mem_iff.mp hx2
    obtain ⟨hxdb, hxc⟩ := List.mem_filter.mp hx3
    exact ⟨x, hxdb, by simpa using hxc, hxe.symm⟩

/-- Witness for C6: limit 1 and offset 0 against conversation c1 of st0,
which holds exactly one message, so the page is full and has_more is
true. -/
theorem get_conversation_history_spec_witness :
    get_conversation_history st0 "s1"
      { conversation_id := some "c1", limit := some 1, offset := some 0 } =
      (st0, [Emit.conversation_history "s1" "c1"
        (((((st0.db.filter (fun m => m.conversation_id == "c1")).mergeSort
              newerFirst).drop 0).take 1).map formatMessage)
        (((((st0.db.filter (fun m => m.conversation_id == "c1")).mergeSort
              newerFirst).drop 0).take 1).map formatMessage).length
        ((((((st0.db.filter (fun m => m.conversation_id == "c1")).mergeSort
              newerFirst).drop 0).take 1).map formatMessage).length == 1)]) :=
  (get_conversation_history_spec st0 "s1"
    { conversation_id := some "c1", limit := some 1, offset := some 0 }
    infoStaff "c1" (by decide) rfl (by decide)).1

/-- Joining a room the connection is already a member of, and which is
already recorded in its user_rooms entry, changes nothing and only
re-emits the acknowledgement. -/
theorem join_conversation_already_joined (st1 : ServerState) (sid : String)
    (info : UserInfo) (conv : String) (cur2 : List String) (now2 : ℕ)
    (hauth1 : lookup st1.connected_users sid = some info)
    (hcne : ¬ (conv = ""))
    (hmem1 : (sid, conv) ∈ st1.rooms)
    (hl2 : lookup st1.user_rooms info.user_id = some cur2)
    (hm2 : conv ∈ cur2) :
    join_conversation st1 sid (some conv) now2 =
      (st1, [Emit.joined_conversation sid conv now2]) := by
  unfold join_conversation
  rw [hauth1]
  dsimp only
  rw [if_neg hcne]
  have he : enter_room st1.rooms sid conv = st1.rooms := by
    unfold enter_room
    rw [if_pos hmem1]
  rw [he]
  have hs2 : (lookup st1.user_rooms info.user_id).isSome = true := by
    rw [hl2]; rfl
  rw [if_pos hs2, hl2]
  simp only [Option.getD_some]
  rw [if_pos hm2]

/-- C8: joining the same conversation twice from the same authenticated
connection is idempotent: the second join leaves the server state exactly
as after the first join and re-emits only the joined_conversation ack,
and the connection holds exactly one membership entry for the room, so a
room broadcast lists that sid exactly once. -/
theorem join_conversation_idempotent (st : ServerState) (sid : String)
    (info : UserInfo) (conv : String) (now now2 : ℕ)
    (hauth : lookup st.connected_users sid = some info)
    (hcne : ¬ (conv = ""))
    (hcount : st.rooms.count (sid, conv) ≤ 1) :
    (join_conversation (join_conversation st sid (some conv) now).1 sid
        (some conv) now2).1 =
      (join_conversation st sid (some conv) now).1
    ∧ (join_conversation (join_conversation st sid (some conv) now).1 sid
        (some conv) now2).2 = [Emit.joined_conversation sid conv now2]
    ∧ (roomMembers (join_conversation (join_conversation st sid (some conv)
        now).1 sid (some conv) now2).1.rooms conv).count sid = 1 := by
  have hcu : (join_conversation st sid (some conv) now).1.connected_users =
      st.connected_users := by
    unfold join_conversation
    rw [hauth]
    dsimp only
    rw [if_neg hcne]
  have hrooms : (join_conversation st sid (some conv) now).1.rooms =
      enter_room st.rooms sid conv := by
    unfold join_conversation
    rw [hauth]
    dsimp only
    rw [if_neg hcne]
  have hur : ∃ cur2,
      lookup (join_conversation st sid (some conv) now).1.user_rooms
        info.user_id = some cur2 ∧ conv ∈ cur2 := by
    unfold join_conversation
    rw [hauth]
    dsimp only
    rw [if_neg hcne]
    dsimp only
    by_cases h0 : (lookup st.user_rooms info.user_id).isSome = true
    · rw [if_pos h0]
      by_cases hmem : conv ∈ (lookup st.user_rooms info.user_id).getD []
      · rw [if_pos hmem]
        refine ⟨(lookup st.user_rooms info.user_id).getD [], ?_, hmem⟩
        cases hx : lookup st.user_rooms info.user_id
        · rw [hx] at h0; simp at h0
        · simp
      · rw [if_neg hmem]
        exact ⟨_, lookup_setEntry_self _ _ _, by simp⟩
    · rw [if_neg h0]
      have hnone : lookup st.user_rooms info.user_id = none := by
        cases hx : lookup st.user_rooms info.user_id
        · rfl
        · rw [hx] at h0; simp at h0
      have happ : lookup (st.user_rooms ++ [(info.user_id, [])])
          info.user_id = some [] := lookup_append_single _ _ _ hnone
      rw [happ]
      simp only [Option.getD_some, List.not_mem_nil, if_false]
      exact ⟨_, lookup_setEntry_self _ _ _, by simp⟩
  obtain ⟨cur2, hl2, hm2⟩ := hur
  have hmem1 : (sid, conv) ∈ (join_conversation st sid (some conv) now).1.rooms := by
    rw [hrooms]; exact mem_enter_room st.rooms sid conv
  have hc1 : (join_conversation st sid (some conv) now).1.rooms.count
      (sid, conv) = 1 := by
    rw [hrooms]; exact count_enter_room st.rooms sid conv hcount
  have h2 : join_conversation (join_conversation st sid (some conv) now).1
      sid (some conv) now2 =
      ((join_conversation st sid (some conv) now).1,
       [Emit.joined_conversation sid conv now2]) :=
    join_conversation_already_joined
      (join_conversation st sid (some conv) now).1 sid info conv cur2 now2
      (by rw [hcu]; exact hauth) hcne hmem1 hl2 hm2
  refine ⟨?_, ?_, ?_⟩
  · rw [h2]
  · rw [h2]
  · rw [h2]
    rw [count_roomMembers, hc1]

/-- Witness for C8: the staff connection of st0 joins conversation c2
twice. -/
theorem join_conversation_idempotent_witness :
    (join_conversation (join_conversation st0 "s1" (some "c2") 7).1 "s1"
        (some "c2") 8).1 =
      (join_conversation st0 "s1" (some "c2") 7).1
    ∧ (join_conversation (join_conversation st0 "s1" (some "c2") 7).1 "s1"
        (some "c2") 8).2 = [Emit.joined_conversation "s1" "c2" 8]
    ∧ (roomMembers (join_conversation (join_conversation st0 "s1" (some "c2")
        7).1 "s1" (some "c2") 8).1.rooms "c2").count "s1" = 1 :=
  join_conversation_idempotent st0 "s1" infoStaff "c2" 7 8
    (by decide) (by decide) (by decide)

/-- Componentwise reading of the BEq instance on string pairs. -/
theorem prod_beq_mk (a b c d : String) :
    ((a, b) == (c, d)) = (a == c && b == d) := rfl

/-- Deleting a key from a dict makes it look up to nothing. -/
theorem lookup_eraseEntry_self {β : Type} (l : List (String × β))
    (k : String) : lookup (eraseEntry l k) k = none := by
  unfold lookup eraseEntry
  have hf : (l.filter (fun e => !(e.1 == k))).find? (fun e => e.1 == k)
      = none := by
    rw [List.find?_eq_none]
    intro e he
    have h2 := (List.mem_filter.mp he).2
    simp only [Bool.not_eq_eq_eq_not, Bool.not_true] at h2
    simp [h2]
  rw [hf]
  rfl

/-- Leaving each room of a list removes exactly the membership pairs of
that sid whose room occurs in the list. -/
theorem foldl_leave_room (rs : List String)
    (rooms : List (String × String)) (sid : String) :
    rs.foldl (fun acc room => leave_room acc sid room) rooms =
      rooms.filter (fun e => !(e.1 == sid && rs.contains e.2)) := by
  induction rs generalizing rooms with
  | nil => simp
  | cons r rest ih =>
    rw [List.foldl_cons]
    show rest.foldl (fun acc room => leave_room acc sid room)
        (leave_room rooms sid r) = _
    rw [ih (leave_room rooms sid r)]
    unfold leave_room
    rw [List.filter_filter]
    apply List.filter_congr
    intro e _
    obtain ⟨a, b⟩ := e
    by_cases h1 : a = sid <;> by_cases h2 : b = r <;>
      by_cases h3 : b ∈ rest <;>
        simp [h1, h2, h3, List.contains_cons, prod_beq_mk]

/-- Filtering one sid out of the room table filters it out of every
room's member list. -/
theorem roomMembers_filter_sid (rooms : List (String × String))
    (sid conv : String) :
    roomMembers (rooms.filter (fun e => !(e.1 == sid))) conv =
      (roomMembers rooms conv).filter (fun x => !(x == sid)) := by
  unfold roomMembers
  rw [List.filter_filter, List.filter_map, List.filter_filter]
  congr 1
  apply List.filter_congr
  intro e _
  simp only [Function.comp]
  exact Bool.and_comm _ _

/-- Disconnecting a connection the registry does not know is a no-op. -/
theorem disconnect_unknown (st : ServerState) (sid : String)
    (h : lookup st.connected_users sid = none) : disconnect st sid = st := by
  unfold disconnect
  rw [h]

/-- C9: disconnecting an authenticated connection removes it from every
room it was a member of and deletes its registry record; the subsequent
member list of every room is the previous one with that sid filtered
out, so later broadcasts reach only the remaining members; running
disconnect again on the same (now unknown) connection, or on any unknown
connection, changes nothing and raises no error.  The well-formedness
hypothesis ties the socket-level membership to the user_rooms tracking,
as maintained by join/leave for distinct user ids. -/
theorem disconnect_spec (st : ServerState) (sid : String) (info : UserInfo)
    (hauth : lookup st.connected_users sid = some info)
    (hwf : ∀ e ∈ st.rooms, e.1 = sid →
      e.2 ∈ (lookup st.user_rooms info.user_id).getD []) :
    lookup (disconnect st sid).connected_users sid = none
    ∧ (∀ e ∈ (disconnect st sid).rooms, e.1 ≠ sid)
    ∧ (∀ conv, roomMembers (disconnect st sid).rooms conv =
        (roomMembers st.rooms conv).filter (fun x => !(x == sid)))
    ∧ disconnect (disconnect st sid) sid = disconnect st sid
    ∧ (∀ sid2, lookup st.connected_users sid2 = none →
        disconnect st sid2 = st) := by
  have hcu2 : (disconnect st sid).connected_users =
      eraseEntry st.connected_users sid := by
    unfold disconnect
    rw [hauth]
    dsimp only
    cases hcase : lookup st.user_rooms info.user_id <;> rfl
  have hr : (disconnect st sid).rooms =
      st.rooms.filter (fun e => !(e.1 == sid)) := by
    unfold disconnect
    rw [hauth]
    dsimp only
    cases hcase : lookup st.user_rooms info.user_id with
    | none =>
      dsimp only
      symm
      rw [List.filter_eq_self]
      intro e he
      by_cases h1 : e.1 = sid
      · have := hwf e he h1
        rw [hcase] at this
        simp at this
      · simp [h1]
    | some rs =>
      dsimp only
      rw [foldl_leave_room]
      apply List.filter_congr
      intro e he
      by_cases h1 : e.1 = sid
      · have h2 := hwf e he h1
        rw [hcase] at h2
        simp only [Option.getD_some] at h2
        simp [h1, h2]
      · simp [h1]
  have hc1 : lookup (disconnect st sid).connected_users sid = none := by
    rw [hcu2]
    exact lookup_eraseEntry_self st.connected_users sid
  refine ⟨hc1, ?_, ?_, disconnect_unknown _ sid hc1,
    fun sid2 h => disconnect_unknown st sid2 h⟩
  · intro e he h1
    rw [hr] at he
    have h2 := (List.mem_filter.mp he).2
    simp [h1] at h2
  · intro conv
    rw [hr]
    exact roomMembers_filter_sid st.rooms sid conv

/-- Witness for C9: disconnecting the staff connection of st0, which is
joined to conversation c1; patient connection s2 remains the only
member. -/
theorem disconnect_spec_witness :
    lookup (disconnect st0 "s1").connected_users "s1" = none
    ∧ (∀ e ∈ (disconnect st0 "s1").rooms, e.1 ≠ "s1")
    ∧ roomMembers (disconnect st0 "s1").rooms "c1" =
        (roomMembers st0.rooms "c1").filter (fun x => !(x == "s1"))
    ∧ disconnect (disconnect st0 "s1") "s1" = disconnect st0 "s1"
    ∧ disconnect st0 "s9" = st0 :=
  have h := disconnect_spec st0 "s1" infoStaff (by decide)
    (by decide)
  ⟨h.1, h.2.1, h.2.2.1 "c1", h.2.2.2.1, h.2.2.2.2 "s9" (by decide)⟩

/-- C7 (code bug): sqlalchemy's func is never imported by chat_server.py,
so in every execution mode func_imported is false and every authenticated
get_unread_count request trips a NameError inside the handler's try block,
which turns it into a single error event to the requester; the counting
semantics the claim describes are unreachable. -/
theorem get_unread_count_func_unbound (ctx : ModuleCtx) (st : ServerState)
    (sid : String) (data : UnreadData) (info : UserInfo)
    (hauth : lookup st.connected_users sid = some info)
    (hctx : ctx.func_imported = false) :
    get_unread_count ctx st sid data =
      (st, [Emit.error sid "Erro ao obter contagem: name func is not defined"]) := by
  unfold get_unread_count
  rw [hauth]
  dsimp only
  simp [hctx]

/-- Witness for C7: an authenticated staff connection asking for its
unread counts. -/
theorem get_unread_count_func_unbound_witness :
    get_unread_count ⟨false, false⟩ st0 "s1"
      { conversation_id := none } =
      (st0, [Emit.error "s1" "Erro ao obter contagem: name func is not defined"]) :=
  get_unread_count_func_unbound ⟨false, false⟩ st0 "s1"
    { conversation_id := none } infoStaff (by decide) rfl

end ChatServer
